import Mathlib

/-!
# Shallow embedding of the clinic-management admin screens

This file embeds the form-state, validation, pagination, submit and fetch
logic of the two resource-management screens of the repository
(`HospitalManagement`, the paginated variant with client-side validation,
and `UserManagement`) and proves the frozen specification claims about them.

Strings are modelled with Lean `String`; JS `Record<string, string>`
validation objects are modelled as structures of `Option String` fields
(`none` = key absent, `some ""` = key present with empty value, which the
UI treats as "no error", exactly as JS truthiness does); JS `Date`
comparison of `"1970-01-01T" ++ hhmm` strings is modelled by an explicit
`Option`-valued clock-time parser (`none` corresponds to an Invalid Date,
for which every JS `>=` comparison is false).
-/

namespace ClinicAdmin

/-- JS `\s`: space, tab, newline, carriage return, vertical tab and form
feed (plus some Unicode spaces, which none of the claims need). -/
def isJsWhitespace (c : Char) : Bool :=
  c = ' ' || c = '\t' || c = '\n' || c = '\r' || c = '\x0b' || c = '\x0c'

/-- Characters removed by the source regex `/[-()\s]/g` used by the
phone/mobile validators. -/
def isSeparatorChar (c : Char) : Bool :=
  c = '-' || c = '(' || c = ')' || isJsWhitespace c

/-- Models `s.replace(/[-()\s]/g, '')` from the phone/mobile validation rules. -/
def stripSeparators (s : String) : String :=
  String.mk (s.data.filter (fun c => !(isSeparatorChar c)))

/-- Models `/^\d{10,12}$/.test s`: a run of 10 to 12 digits. -/
def isDigits10to12 (s : String) : Bool :=
  decide (10 ≤ s.data.length) && decide (s.data.length ≤ 12) &&
    s.data.all (fun c => c.isDigit)

/-- Models `/^\d{6}$/.test s`: exactly six digits (hospital pin code rule). -/
def isPinCode6 (s : String) : Bool :=
  decide (s.data.length = 6) && s.data.all (fun c => c.isDigit)

/-- Splits a character list at the first occurrence of `ch`; `none` when
`ch` does not occur. -/
def splitFirstAt (ch : Char) : List Char → Option (List Char × List Char)
  | [] => none
  | c :: cs =>
    if c = ch then some ([], cs)
    else
      match splitFirstAt ch cs with
      | some (a, b) => some (c :: a, b)
      | none => none

/-- Models `/^[^\s@]+@[^\s@]+\.[^\s@]+$/.test s`, the email rule of both
validators: a non-empty local part without whitespace or `@`, one `@`, and
a domain part without whitespace or `@` that contains a dot which is
neither its first nor its last character. -/
def isEmailLike (s : String) : Bool :=
  match splitFirstAt '@' s.data with
  | none => false
  | some (localPart, domainPart) =>
    decide (localPart ≠ []) && localPart.all (fun c => !(isJsWhitespace c)) &&
    decide (domainPart ≠ []) &&
    domainPart.all (fun c => !(isJsWhitespace c || c = '@')) &&
    ((domainPart.drop 1).dropLast).contains '.'

/-- Numeric value of a digit character. -/
def digitVal (c : Char) : Nat := c.toNat - '0'.toNat

/-- Minutes-since-midnight of a `"HH:MM"` clock string, as produced by
`new Date("1970-01-01T" ++ s)` in the working-hours rule: `none` models an
Invalid Date (every JS comparison on which is false). The screens only ever
store `"HH:MM"` strings (the TimePicker emits
`toTimeString().split(' ')[0].substring(0, 5)`). -/
def parseClockTime (s : String) : Option Nat :=
  match s.data with
  | [h1, h2, ':', m1, m2] =>
    if h1.isDigit && h2.isDigit && m1.isDigit && m2.isDigit then
      let h := 10 * digitVal h1 + digitVal h2
      let m := 10 * digitVal m1 + digitVal m2
      if h ≤ 23 && m ≤ 59 then some (60 * h + m) else none
    else none
  | _ => none

/-- The `HospitalFormData` draft of the paginated `HospitalManagement`
screen (the variant with client-side validation). -/
structure HospitalFormData where
  registration_id : String
  registration_date : String
  clinic_name : String
  speciality : String
  logo : String
  email : String
  address : String
  address2 : String
  pin_code : String
  country : String
  state : String
  city : String
  phone_number : String
  mobile_number : String
  working_hours_from : String
  working_hours_to : String
  deriving DecidableEq

/-- The validation `errors` object built by the hospital `validateForm`:
one optional message per key the source ever assigns. -/
structure HospitalErrors where
  clinic_name : Option String
  address : Option String
  pin_code : Option String
  phone_number : Option String
  mobile_number : Option String
  email : Option String
  working_hours_to : Option String
  deriving DecidableEq

/-- The empty `{}` validation object of the hospital screen. -/
def emptyHospitalErrors : HospitalErrors :=
  { clinic_name := none, address := none, pin_code := none, phone_number := none,
    mobile_number := none, email := none, working_hours_to := none }

/-- The hospital `validateForm`, rule for rule: required `clinic_name`,
`address`, `pin_code`; 6-digit pin format; 10-12 digit phone and mobile
after separator stripping; email shape; and `working_hours_from` strictly
before `working_hours_to` when both are present (the error is keyed at
`working_hours_to`). -/
def validateHospitalForm (d : HospitalFormData) : HospitalErrors :=
  { clinic_name := if d.clinic_name = "" then some "Clinic Name is required" else none
    address := if d.address = "" then some "Address is required" else none
    pin_code :=
      if d.pin_code = "" then some "Pin Code is required"
      else if isPinCode6 d.pin_code then none
      else some "Pin Code must be a 6-digit number"
    phone_number :=
      if d.phone_number ≠ "" && !(isDigits10to12 (stripSeparators d.phone_number)) then
        some "Please enter a valid phone number"
      else none
    mobile_number :=
      if d.mobile_number ≠ "" && !(isDigits10to12 (stripSeparators d.mobile_number)) then
        some "Please enter a valid mobile number"
      else none
    email :=
      if d.email ≠ "" && !(isEmailLike d.email) then
        some "Please enter a valid email address"
      else none
    working_hours_to :=
      if d.working_hours_from ≠ "" && d.working_hours_to ≠ "" then
        match parseClockTime d.working_hours_from, parseClockTime d.working_hours_to with
        | some fromMin, some toMin =>
          if toMin ≤ fromMin then
            some "Working Hours To must be later than Working Hours From"
          else none
        | _, _ => none
      else none }

/-- Produces `[k]` when the optional error `v` is an assigned key, else `[]`. -/
def optKey (k : String) (v : Option String) : List String :=
  match v with
  | some _ => [k]
  | none => []

/-- Models `Object.keys(errors)` for the hospital validation object, in the
source's assignment order. -/
def hospitalErrorKeys (e : HospitalErrors) : List String :=
  optKey "clinic_name" e.clinic_name ++ optKey "address" e.address ++
    optKey "pin_code" e.pin_code ++ optKey "phone_number" e.phone_number ++
    optKey "mobile_number" e.mobile_number ++ optKey "email" e.email ++
    optKey "working_hours_to" e.working_hours_to

/-- The `Hospital` entity of the paginated screens
(`src/types/hospital.ts`, snake_case variant). -/
structure Hospital where
  id : String
  registration_id : String
  registration_date : String
  email : String
  logo : String
  clinic_name : String
  speciality : String
  address : String
  address2 : String
  pin_code : String
  country : String
  state : String
  city : String
  phone_number : String
  mobile_number : String
  working_hours_from : String
  working_hours_to : String
  createdAt : String
  updatedAt : String
  deriving DecidableEq

/-- The `{} as Hospital` cast used for `hospital_details` in the initial
user draft: an object with every field absent, modelled as all-empty. -/
def emptyHospital : Hospital :=
  { id := "", registration_id := "", registration_date := "", email := "", logo := "",
    clinic_name := "", speciality := "", address := "", address2 := "", pin_code := "",
    country := "", state := "", city := "", phone_number := "", mobile_number := "",
    working_hours_from := "", working_hours_to := "", createdAt := "", updatedAt := "" }

/-- The `HospitalUserFormData` draft of the `UserManagement` screen. -/
structure HospitalUserFormData where
  _id : String
  title : String
  first_name : String
  last_name : String
  hospital_id : String
  hospital_details : Hospital
  gender : String
  email_id : String
  mobile_number : String
  phone_number : String
  qualification : String
  designation : String
  is_doctor : Bool
  color : String
  staff_status : String
  set_availability : Bool
  user_role : String
  is_admin : Bool
  photo : String
  deriving DecidableEq

/-- The validation `errors` object built by the user `validateForm`: one
optional message per key the source ever assigns. -/
structure UserErrors where
  first_name : Option String
  last_name : Option String
  hospital_id : Option String
  email_id : Option String
  phone_number : Option String
  mobile_number : Option String
  deriving DecidableEq

/-- The empty `{}` validation object of the user screen. -/
def emptyUserErrors : UserErrors :=
  { first_name := none, last_name := none, hospital_id := none, email_id := none,
    phone_number := none, mobile_number := none }

/-- The user `validateForm`, rule for rule: required `first_name`,
`last_name`, `hospital_id`, `email_id`; email shape; 10-12 digit phone and
mobile after separator stripping. -/
def validateUserForm (d : HospitalUserFormData) : UserErrors :=
  { first_name := if d.first_name = "" then some "First Name is required" else none
    last_name := if d.last_name = "" then some "Last Name is required" else none
    hospital_id := if d.hospital_id = "" then some "Hospital is required" else none
    email_id :=
      if d.email_id = "" then some "Email is required"
      else if isEmailLike d.email_id then none
      else some "Please enter a valid email address"
    phone_number :=
      if d.phone_number ≠ "" && !(isDigits10to12 (stripSeparators d.phone_number)) then
        some "Please enter a valid phone number"
      else none
    mobile_number :=
      if d.mobile_number ≠ "" && !(isDigits10to12 (stripSeparators d.mobile_number)) then
        some "Please enter a valid mobile number"
      else none }

/-- Models `Object.keys(errors)` for the user validation object, in the source's
assignment order. -/
def userErrorKeys (e : UserErrors) : List String :=
  optKey "first_name" e.first_name ++ optKey "last_name" e.last_name ++
    optKey "hospital_id" e.hospital_id ++ optKey "email_id" e.email_id ++
    optKey "phone_number" e.phone_number ++ optKey "mobile_number" e.mobile_number

/-- The numbered pagination buttons rendered by both paginated screens:
`Array.from({length: Math.min(totalPages, 5)}, (_, i) => ...)` with the
four-branch page-number computation. -/
def paginationWindow (totalPages currentPage : Nat) : List Nat :=
  (List.range (min totalPages 5)).map (fun i =>
    if totalPages ≤ 5 then i + 1
    else if currentPage ≤ 3 then i + 1
    else if totalPages - 2 ≤ currentPage then totalPages - 4 + i
    else currentPage - 2 + i)

/-- The `HospitalUser` entity (`src/types/hospitalUser.ts`). -/
structure HospitalUser where
  _id : String
  title : String
  first_name : String
  last_name : String
  hospital_id : String
  hospital_details : Hospital
  gender : String
  email_id : String
  mobile_number : String
  phone_number : String
  qualification : String
  designation : String
  is_doctor : Bool
  color : String
  staff_status : String
  set_availability : Bool
  user_role : String
  is_admin : Bool
  photo : String
  createdAt : String
  updatedAt : String
  deriving DecidableEq

/-- A value of the JSON body sent by the hospital `handleSubmit`: plain
strings, except `registration_date` which is wrapped in `new Date(...)`. -/
inductive PayloadValue
  | str (s : String)
  | date (s : String)
  deriving DecidableEq

/-- The network requests the two screens can issue from `handleSubmit`. -/
inductive ApiRequest
  | postHospital (body : List (String × PayloadValue))
  | putHospital (id : String) (body : List (String × PayloadValue))
  | postUser (body : HospitalUserFormData)
  | putUser (id : String) (body : HospitalUserFormData)
  deriving DecidableEq

/-- The `hospitalData` object the paginated hospital screen sends to
`POST /hospital` and `PUT /hospital/{id}`, key for key in source order.
Note it has no `registration_id` key. -/
def hospitalPayload (d : HospitalFormData) : List (String × PayloadValue) :=
  [("registration_date", .date d.registration_date),
   ("clinic_name", .str d.clinic_name),
   ("speciality", .str d.speciality),
   ("logo", .str d.logo),
   ("email", .str d.email),
   ("address", .str d.address),
   ("address2", .str d.address2),
   ("pin_code", .str d.pin_code),
   ("country", .str d.country),
   ("state", .str d.state),
   ("city", .str d.city),
   ("phone_number", .str d.phone_number),
   ("mobile_number", .str d.mobile_number),
   ("working_hours_from", .str d.working_hours_from),
   ("working_hours_to", .str d.working_hours_to)]

/-- The component state of the paginated `HospitalManagement` screen. -/
structure HospitalPageState where
  hospitals : List Hospital
  isModalOpen : Bool
  searchTerm : String
  editingHospital : Option Hospital
  currentPage : Nat
  isLoading : Bool
  error : Option String
  totalCount : Nat
  validation : HospitalErrors
  formData : HospitalFormData
  deriving DecidableEq

/-- The `initialFormData` of the hospital screen; `registration_date` defaults
to `getTodayDate()`, passed in as `today`. -/
def initialHospitalFormData (today : String) : HospitalFormData :=
  { registration_id := "", registration_date := today, clinic_name := "",
    speciality := "", logo := "", email := "", address := "", address2 := "",
    pin_code := "", country := "", state := "", city := "", phone_number := "",
    mobile_number := "", working_hours_from := "", working_hours_to := "" }

/-- The `handleCloseModal` of the hospital screen: close the modal, drop the
editing reference, reset the draft to `initialFormData`, clear validation. -/
def handleCloseModalH (today : String) (st : HospitalPageState) : HospitalPageState :=
  { st with isModalOpen := false, editingHospital := none,
            formData := initialHospitalFormData today,
            validation := emptyHospitalErrors }

/-- A `GET /hospital` response body together with the search term the
request carried (`forTerm` is bookkeeping about the request; the source
handler never looks at it — there is no staleness check). -/
structure FetchResponse where
  forTerm : String
  hospitals : List Hospital
  totalCount : Nat
  page : Nat
  deriving DecidableEq

/-- The `fetchHospitals` completion handler: `setHospitals`,
`setTotalCount`, `setCurrentPage` from the response, unconditionally, plus
the surrounding `setError(null)` / `finally setIsLoading(false)`. -/
def applyFetchResponse (st : HospitalPageState) (r : FetchResponse) : HospitalPageState :=
  { st with hospitals := r.hospitals, totalCount := r.totalCount,
            currentPage := r.page, isLoading := false, error := none }

/-- The `handleEdit` of the hospital screen: remember the selected hospital,
copy its fields into the draft — except `registration_id`, which is loaded
as the literal `""` — clear validation, open the modal. -/
def handleEditH (st : HospitalPageState) (h : Hospital) : HospitalPageState :=
  { st with editingHospital := some h,
            isModalOpen := true,
            validation := emptyHospitalErrors,
            formData :=
              { registration_id := "",
                registration_date := h.registration_date,
                clinic_name := h.clinic_name,
                speciality := h.speciality,
                logo := h.logo,
                email := h.email,
                address := h.address,
                address2 := h.address2,
                pin_code := h.pin_code,
                country := h.country,
                state := h.state,
                city := h.city,
                phone_number := h.phone_number,
                mobile_number := h.mobile_number,
                working_hours_from := h.working_hours_from,
                working_hours_to := h.working_hours_to } }

/-- Whether the POST/PUT issued by `handleSubmit` succeeds or throws. -/
inductive SubmitOutcome
  | success
  | failure
  deriving DecidableEq

/-- The hospital `handleSubmit`: validate; on a non-empty error mapping
return before any request; otherwise send `hospitalPayload` via PUT (edit
mode) or POST (create mode), and on success re-fetch (`refresh`), close
the modal, and clear the loading flag; on failure set the error banner.
Returns the resulting state and the requests issued. -/
def handleSubmitH (today : String) (st : HospitalPageState) (outcome : SubmitOutcome)
    (refresh : FetchResponse) : HospitalPageState × List ApiRequest :=
  let errors := validateHospitalForm st.formData
  if hospitalErrorKeys errors = [] then
    let req :=
      match st.editingHospital with
      | some h => ApiRequest.putHospital h.id (hospitalPayload st.formData)
      | none => ApiRequest.postHospital (hospitalPayload st.formData)
    let started := { st with validation := errors, isLoading := true, error := none }
    match outcome with
    | .success =>
      let closed := handleCloseModalH today (applyFetchResponse started refresh)
      ({ closed with isLoading := false }, [req])
    | .failure =>
      ({ started with isLoading := false,
                      error := some "Error saving hospital data. Please try again." }, [req])
  else
    ({ st with validation := errors }, [])

/-- The draft fields of the user screen wired to text `Input` elements,
i.e. mutated through `handleInputChange`. -/
inductive UserTextField
  | first_name
  | last_name
  | email_id
  | mobile_number
  | phone_number
  | qualification
  | designation
  | color
  | photo
  deriving DecidableEq

/-- The draft fields of the user screen wired to `Select` elements, i.e.
mutated through `handleSelectChange`. -/
inductive UserSelectField
  | title
  | hospital_id
  | gender
  | user_role
  | staff_status
  deriving DecidableEq

/-- The draft fields of the user screen wired to `Checkbox` elements, i.e.
mutated through `handleCheckboxChange`. -/
inductive UserCheckboxField
  | is_doctor
  | set_availability
  | is_admin
  deriving DecidableEq

/-- The `name` attribute string of a text field, as received by
`handleInputChange` from the DOM event. -/
def userTextFieldName (f : UserTextField) : String :=
  match f with
  | .first_name => "first_name"
  | .last_name => "last_name"
  | .email_id => "email_id"
  | .mobile_number => "mobile_number"
  | .phone_number => "phone_number"
  | .qualification => "qualification"
  | .designation => "designation"
  | .color => "color"
  | .photo => "photo"

/-- Models `{...prev, [name]: value}` for a text field of the user draft. -/
def setUserTextField (d : HospitalUserFormData) (f : UserTextField) (v : String) :
    HospitalUserFormData :=
  match f with
  | .first_name => { d with first_name := v }
  | .last_name => { d with last_name := v }
  | .email_id => { d with email_id := v }
  | .mobile_number => { d with mobile_number := v }
  | .phone_number => { d with phone_number := v }
  | .qualification => { d with qualification := v }
  | .designation => { d with designation := v }
  | .color => { d with color := v }
  | .photo => { d with photo := v }

/-- Reads a text field of the user draft. -/
def getUserTextField (d : HospitalUserFormData) (f : UserTextField) : String :=
  match f with
  | .first_name => d.first_name
  | .last_name => d.last_name
  | .email_id => d.email_id
  | .mobile_number => d.mobile_number
  | .phone_number => d.phone_number
  | .qualification => d.qualification
  | .designation => d.designation
  | .color => d.color
  | .photo => d.photo

/-- Models `{...prev, [name]: value}` for a select field of the user draft. -/
def setUserSelectField (d : HospitalUserFormData) (f : UserSelectField) (v : String) :
    HospitalUserFormData :=
  match f with
  | .title => { d with title := v }
  | .hospital_id => { d with hospital_id := v }
  | .gender => { d with gender := v }
  | .user_role => { d with user_role := v }
  | .staff_status => { d with staff_status := v }

/-- Reads a select field of the user draft. -/
def getUserSelectField (d : HospitalUserFormData) (f : UserSelectField) : String :=
  match f with
  | .title => d.title
  | .hospital_id => d.hospital_id
  | .gender => d.gender
  | .user_role => d.user_role
  | .staff_status => d.staff_status

/-- Models `{...prev, [name]: checked}` for a checkbox field of the user draft. -/
def setUserCheckboxField (d : HospitalUserFormData) (f : UserCheckboxField) (b : Bool) :
    HospitalUserFormData :=
  match f with
  | .is_doctor => { d with is_doctor := b }
  | .set_availability => { d with set_availability := b }
  | .is_admin => { d with is_admin := b }

/-- Reads a checkbox field of the user draft. -/
def getUserCheckboxField (d : HospitalUserFormData) (f : UserCheckboxField) : Bool :=
  match f with
  | .is_doctor => d.is_doctor
  | .set_availability => d.set_availability
  | .is_admin => d.is_admin

/-- JS truthiness of `validation[name]`: the key is present with a
non-empty message. -/
def errTruthy (o : Option String) : Bool :=
  match o with
  | some m => m != ""
  | none => false

/-- The validation entry of the user screen read at a text field's `name`.
Fields that `validateForm` never keys (qualification, designation, color,
photo) read as `undefined`, modelled by `none`. -/
def getUserError (e : UserErrors) (f : UserTextField) : Option String :=
  match f with
  | .first_name => e.first_name
  | .last_name => e.last_name
  | .email_id => e.email_id
  | .mobile_number => e.mobile_number
  | .phone_number => e.phone_number
  | _ => none

/-- Models `if (validation[name]) setValidation({...prev, [name]: ''})` from
`handleInputChange`: when the mutated field's entry is truthy, overwrite
it with the empty string; otherwise leave the validation object alone. -/
def clearUserError (e : UserErrors) (f : UserTextField) : UserErrors :=
  match f with
  | .first_name => if errTruthy e.first_name then { e with first_name := some "" } else e
  | .last_name => if errTruthy e.last_name then { e with last_name := some "" } else e
  | .email_id => if errTruthy e.email_id then { e with email_id := some "" } else e
  | .mobile_number =>
    if errTruthy e.mobile_number then { e with mobile_number := some "" } else e
  | .phone_number =>
    if errTruthy e.phone_number then { e with phone_number := some "" } else e
  | _ => e

/-- The component state of the `UserManagement` screen. -/
structure UserPageState where
  users : List HospitalUser
  isModalOpen : Bool
  searchTerm : String
  selectedHospital : String
  editingUser : Option HospitalUser
  currentPage : Nat
  isLoading : Bool
  error : Option String
  totalCount : Nat
  validation : UserErrors
  formData : HospitalUserFormData
  deriving DecidableEq

/-- The `handleInputChange` of the user screen: write the text field into the
draft and clear that field's truthy validation entry. -/
def handleInputChangeU (st : UserPageState) (f : UserTextField) (v : String) : UserPageState :=
  { st with formData := setUserTextField st.formData f v,
            validation := clearUserError st.validation f }

/-- The `handleSelectChange` of the user screen: write the select field into
the draft. The validation object is not touched. -/
def handleSelectChangeU (st : UserPageState) (f : UserSelectField) (v : String) : UserPageState :=
  { st with formData := setUserSelectField st.formData f v }

/-- The `handleCheckboxChange` of the user screen: write the checkbox field
into the draft. The validation object is not touched. -/
def handleCheckboxChangeU (st : UserPageState) (f : UserCheckboxField) (b : Bool) :
    UserPageState :=
  { st with formData := setUserCheckboxField st.formData f b }

/-- The `initialFormData` of the user screen. -/
def initialUserFormData : HospitalUserFormData :=
  { _id := "", title := "", first_name := "", last_name := "", hospital_id := "",
    hospital_details := emptyHospital, gender := "Male", email_id := "",
    mobile_number := "", phone_number := "", qualification := "", designation := "",
    is_doctor := false, color := "#000000", staff_status := "Active",
    set_availability := false, user_role := "", is_admin := false, photo := "" }

/-- The `handleCloseModal` of the user screen. -/
def handleCloseModalU (st : UserPageState) : UserPageState :=
  { st with isModalOpen := false, editingUser := none,
            formData := initialUserFormData, validation := emptyUserErrors }

/-- A `GET /hospitaluser` response body. -/
structure UserFetchResponse where
  users : List HospitalUser
  totalCount : Nat
  page : Nat
  deriving DecidableEq

/-- The `fetchUsers` completion handler: `setUsers`, `setTotalCount`,
`setCurrentPage` from the response, unconditionally, plus the surrounding
`setError(null)` / `finally setIsLoading(false)`. -/
def applyUserFetchResponse (st : UserPageState) (r : UserFetchResponse) : UserPageState :=
  { st with users := r.users, totalCount := r.totalCount, currentPage := r.page,
            isLoading := false, error := none }

/-- The user `handleSubmit`: validate; on a non-empty error mapping return
before any request; otherwise send the whole draft via PUT (edit mode) or
POST (create mode), and on success re-fetch, close the modal, and clear
the loading flag; on failure set the error banner. -/
def handleSubmitU (st : UserPageState) (outcome : SubmitOutcome)
    (refresh : UserFetchResponse) : UserPageState × List ApiRequest :=
  let errors := validateUserForm st.formData
  if userErrorKeys errors = [] then
    let req :=
      match st.editingUser with
      | some u => ApiRequest.putUser u._id st.formData
      | none => ApiRequest.postUser st.formData
    let started := { st with validation := errors, isLoading := true, error := none }
    match outcome with
    | .success =>
      let closed := handleCloseModalU (applyUserFetchResponse started refresh)
      ({ closed with isLoading := false }, [req])
    | .failure =>
      ({ started with isLoading := false,
                      error := some "Error saving user data. Please try again." }, [req])
  else
    ({ st with validation := errors }, [])

/-- The debounced-search effect of both screens, run over a chronological
list of `(timestamp, searchTerm)` change events. Each change schedules
`fetch(page 1)` for `timestamp + delay` via `setTimeout` and the effect
cleanup `clearTimeout`s the pending timer when the next change arrives
first; so a change's fetch fires exactly when the next change (if any)
comes strictly after its deadline. Fired fetches are `(term, page)` pairs;
the page is always `1` (`fetchHospitals(1)` / `fetchUsers(1)`), and the
term is the one captured by the scheduling effect's closure. -/
def debouncedFetches (delay : Nat) : List (Nat × String) → List (String × Nat)
  | [] => []
  | (t, s) :: rest =>
    match rest with
    | [] => [(s, 1)]
    | (tNext, _) :: _ =>
      (if t + delay < tNext then [(s, 1)] else []) ++ debouncedFetches delay rest

/-- The draft fields of the paginated hospital screen wired to text
`Input` elements, i.e. mutated through its `handleInputChange` (the
registration date and the working hours go through the DatePicker and
TimePicker callbacks instead). Constructor order follows the JSX. -/
inductive HospitalTextField
  | clinic_name
  | speciality
  | logo
  | email
  | phone_number
  | mobile_number
  | address
  | address2
  | city
  | state
  | country
  | pin_code
  deriving DecidableEq

/-- Models `{...prev, [name]: value}` for a text field of the hospital
draft. -/
def setHospitalTextField (d : HospitalFormData) (f : HospitalTextField) (v : String) :
    HospitalFormData :=
  match f with
  | .clinic_name => { d with clinic_name := v }
  | .speciality => { d with speciality := v }
  | .logo => { d with logo := v }
  | .email => { d with email := v }
  | .phone_number => { d with phone_number := v }
  | .mobile_number => { d with mobile_number := v }
  | .address => { d with address := v }
  | .address2 => { d with address2 := v }
  | .city => { d with city := v }
  | .state => { d with state := v }
  | .country => { d with country := v }
  | .pin_code => { d with pin_code := v }

/-- Reads a text field of the hospital draft. -/
def getHospitalTextField (d : HospitalFormData) (f : HospitalTextField) : String :=
  match f with
  | .clinic_name => d.clinic_name
  | .speciality => d.speciality
  | .logo => d.logo
  | .email => d.email
  | .phone_number => d.phone_number
  | .mobile_number => d.mobile_number
  | .address => d.address
  | .address2 => d.address2
  | .city => d.city
  | .state => d.state
  | .country => d.country
  | .pin_code => d.pin_code

/-- The hospital validation entry read at a text field's `name`. Fields
that the hospital `validateForm` never keys (speciality, logo, address2,
city, state, country) read as `undefined`, modelled by `none`. -/
def getHospitalError (e : HospitalErrors) (f : HospitalTextField) : Option String :=
  match f with
  | .clinic_name => e.clinic_name
  | .email => e.email
  | .phone_number => e.phone_number
  | .mobile_number => e.mobile_number
  | .address => e.address
  | .pin_code => e.pin_code
  | _ => none

/-- Models `if (validation[name]) setValidation({...prev, [name]: ''})`
from the hospital screen's `handleInputChange`: when the mutated field's
entry is truthy, overwrite it with the empty string; otherwise leave the
validation object alone. -/
def clearHospitalError (e : HospitalErrors) (f : HospitalTextField) : HospitalErrors :=
  match f with
  | .clinic_name => if errTruthy e.clinic_name then { e with clinic_name := some "" } else e
  | .email => if errTruthy e.email then { e with email := some "" } else e
  | .phone_number =>
    if errTruthy e.phone_number then { e with phone_number := some "" } else e
  | .mobile_number =>
    if errTruthy e.mobile_number then { e with mobile_number := some "" } else e
  | .address => if errTruthy e.address then { e with address := some "" } else e
  | .pin_code => if errTruthy e.pin_code then { e with pin_code := some "" } else e
  | _ => e

/-- The `handleInputChange` of the paginated hospital screen: write the
text field into the draft and clear that field's truthy validation
entry. -/
def handleInputChangeH (st : HospitalPageState) (f : HospitalTextField) (v : String) :
    HospitalPageState :=
  { st with formData := setHospitalTextField st.formData f v,
            validation := clearHospitalError st.validation f }

/-! ## Concrete fixtures used by witnesses and counterexamples -/

/-- A hospital draft with the three required fields filled and a valid
pin code; everything optional left at its initial value. -/
def baseHospitalDraft : HospitalFormData :=
  { initialHospitalFormData "2025-01-01" with
      clinic_name := "City Clinic", address := "12 Main Road", pin_code := "600001" }

/-- The base draft with a given pin code. -/
def hospitalDraftWithPin (p : String) : HospitalFormData :=
  { baseHospitalDraft with pin_code := p }

/-- The base draft with given working-hours bounds. -/
def hospitalDraftWithHours (fromT toT : String) : HospitalFormData :=
  { baseHospitalDraft with working_hours_from := fromT, working_hours_to := toT }

/-- A quiescent hospital page holding a submittable (valid) draft. -/
def readySubmitState : HospitalPageState :=
  { hospitals := [], isModalOpen := true, searchTerm := "", editingHospital := none,
    currentPage := 1, isLoading := false, error := none, totalCount := 0,
    validation := emptyHospitalErrors, formData := baseHospitalDraft }

/-- A hospital page holding the pristine (invalid: required fields empty)
draft. -/
def invalidSubmitState : HospitalPageState :=
  { readySubmitState with formData := initialHospitalFormData "2025-01-01" }

/-- An innocuous refresh response for the submit-success path. -/
def demoRefresh : FetchResponse :=
  { forTerm := "", hospitals := [], totalCount := 0, page := 1 }

/-- An innocuous user refresh response for the submit-success path. -/
def demoUserRefresh : UserFetchResponse :=
  { users := [], totalCount := 0, page := 1 }

/-- A user page whose open modal carries a pending `hospital_id` required
error. -/
def userStateWithHospitalError : UserPageState :=
  { users := [], isModalOpen := true, searchTerm := "", selectedHospital := "",
    editingUser := none, currentPage := 1, isLoading := false, error := none,
    totalCount := 0,
    validation := { emptyUserErrors with hospital_id := some "Hospital is required" },
    formData := initialUserFormData }

/-- A stored hospital named Apollo. -/
def hospitalApollo : Hospital :=
  { emptyHospital with id := "h1", clinic_name := "Apollo", registration_id := "REG-1" }

/-- A stored hospital named Breach Candy. -/
def hospitalBreach : Hospital :=
  { emptyHospital with id := "h2", clinic_name := "Breach Candy", registration_id := "REG-2" }

/-- The hospital page right after the search term became `"breach"`, with
two fetches in flight (an older one for `"apollo"`, a newer one for
`"breach"`). -/
def staleDemoState : HospitalPageState :=
  { hospitals := [], isModalOpen := false, searchTerm := "breach",
    editingHospital := none, currentPage := 1, isLoading := true, error := none,
    totalCount := 0, validation := emptyHospitalErrors,
    formData := initialHospitalFormData "2025-01-01" }

/-- The response of the newer request (search `"breach"`). -/
def freshResponse : FetchResponse :=
  { forTerm := "breach", hospitals := [hospitalBreach], totalCount := 1, page := 1 }

/-- The late response of the superseded request (search `"apollo"`). -/
def staleResponse : FetchResponse :=
  { forTerm := "apollo", hospitals := [hospitalApollo], totalCount := 1, page := 1 }

/-! ## Helper lemmas -/

lemma mem_optKey {k k2 : String} {v : Option String} :
    k ∈ optKey k2 v ↔ k = k2 ∧ v ≠ none := by
  cases v <;> simp [optKey]

lemma hospitalErrorKeys_eq_nil (e : HospitalErrors) :
    hospitalErrorKeys e = [] ↔ e = emptyHospitalErrors := by
  obtain ⟨a, b, c, d2, e2, f2, g2⟩ := e
  cases a <;> cases b <;> cases c <;> cases d2 <;> cases e2 <;> cases f2 <;> cases g2 <;>
    simp [hospitalErrorKeys, optKey, emptyHospitalErrors]

lemma userErrorKeys_eq_nil (e : UserErrors) :
    userErrorKeys e = [] ↔ e = emptyUserErrors := by
  obtain ⟨a, b, c, d2, e2, f2⟩ := e
  cases a <;> cases b <;> cases c <;> cases d2 <;> cases e2 <;> cases f2 <;>
    simp [userErrorKeys, optKey, emptyUserErrors]

lemma filter_self_idem (p : Char → Bool) (l : List Char) :
    (l.filter p).filter p = l.filter p := by
  induction l with
  | nil => rfl
  | cons c cs ih => by_cases h : p c <;> simp [h, ih]

lemma stripSeparators_idem (s : String) :
    stripSeparators (stripSeparators s) = stripSeparators s := by
  simp [stripSeparators, filter_self_idem]

lemma parseClockTime_ne_empty {s : String} {n : Nat}
    (h : parseClockTime s = some n) : s ≠ "" := by
  intro he
  subst he
  simp [parseClockTime] at h

/-! ## Claims -/

/-- C1: the claim says a response belonging to a superseded search never
overwrites the list produced by a newer query. The fetch completion
handler has no request token or staleness check, so the claim fails — and
the specification itself flags this as a bug to fix: with the search term
at `"breach"`, applying the newer response (for `"breach"`) and then the
late stale response (for `"apollo"`) leaves the list holding the stale
records, which do not correspond to the latest issued search term. -/
theorem claim1_stale_response_overwrites :
    staleResponse.forTerm ≠ staleDemoState.searchTerm ∧
    freshResponse.forTerm = staleDemoState.searchTerm ∧
    (applyFetchResponse staleDemoState freshResponse).hospitals = [hospitalBreach] ∧
    (applyFetchResponse (applyFetchResponse staleDemoState freshResponse)
        staleResponse).hospitals = [hospitalApollo] ∧
    (applyFetchResponse (applyFetchResponse staleDemoState freshResponse)
        staleResponse).searchTerm = "breach" ∧
    [hospitalApollo] ≠ [hospitalBreach] := by
  refine ⟨by decide, rfl, rfl, rfl, rfl, by decide⟩

/-- C2: the pagination control renders at most 5 numbered buttons: all
pages when `totalPages ≤ 5`, the first five when `currentPage ≤ 3`, the
last five when `currentPage ≥ totalPages - 2`, and the five pages centred
on `currentPage` otherwise; every rendered page number stays in
`[1, totalPages]`; and for `totalPages = 12` the windows at pages 1, 10
and 6 are `[1..5]`, `[8..12]` and `[4..8]`. -/
theorem claim2_pagination_window (tp cp : Nat) (htp : 1 ≤ tp) (hcp1 : 1 ≤ cp)
    (hcp2 : cp ≤ tp) :
    (paginationWindow tp cp).length ≤ 5 ∧
    (tp ≤ 5 → paginationWindow tp cp = (List.range tp).map (fun i => i + 1)) ∧
    (5 < tp → cp ≤ 3 → paginationWindow tp cp = [1, 2, 3, 4, 5]) ∧
    (5 < tp → tp - 2 ≤ cp →
      paginationWindow tp cp = [tp - 4, tp - 3, tp - 2, tp - 1, tp]) ∧
    (5 < tp → 3 < cp → cp < tp - 2 →
      paginationWindow tp cp = [cp - 2, cp - 1, cp, cp + 1, cp + 2]) ∧
    (∀ p ∈ paginationWindow tp cp, 1 ≤ p ∧ p ≤ tp) ∧
    paginationWindow 12 1 = [1, 2, 3, 4, 5] ∧
    paginationWindow 12 10 = [8, 9, 10, 11, 12] ∧
    paginationWindow 12 6 = [4, 5, 6, 7, 8] := by
  refine ⟨?_, ?_, ?_, ?_, ?_, ?_, by decide, by decide, by decide⟩
  · simp [paginationWindow]
  · intro h
    rw [paginationWindow, Nat.min_eq_left h]
    exact List.map_congr_left (fun i _ => by simp [h])
  · intro h1 h2
    rw [paginationWindow, Nat.min_eq_right (by omega)]
    simp [show List.range 5 = [0, 1, 2, 3, 4] from rfl, show ¬ tp ≤ 5 from by omega, h2]
  · intro h1 h2
    rw [paginationWindow, Nat.min_eq_right (by omega)]
    simp [show List.range 5 = [0, 1, 2, 3, 4] from rfl, show ¬ tp ≤ 5 from by omega,
      show ¬ cp ≤ 3 from by omega, h2]
    omega
  · intro h1 h2 h3
    rw [paginationWindow, Nat.min_eq_right (by omega)]
    simp [show List.range 5 = [0, 1, 2, 3, 4] from rfl, show ¬ tp ≤ 5 from by omega,
      show ¬ cp ≤ 3 from by omega, show ¬ tp - 2 ≤ cp from by omega]
    omega
  · intro p hp
    rw [paginationWindow] at hp
    simp only [List.mem_map, List.mem_range] at hp
    obtain ⟨i, hi, rfl⟩ := hp
    split_ifs <;> omega

/-- Witness for C2 at `totalPages = 12`, `currentPage = 6`. -/
theorem claim2_pagination_window_witness :
    paginationWindow 12 6 = [4, 5, 6, 7, 8] :=
  (claim2_pagination_window 12 6 (by decide) (by decide) (by decide)).2.2.2.2.2.2.2.2

/-- C9: over a burst of two search-term changes less than 500 ms apart,
exactly one debounced fetch fires; it carries the latest term and
requests page 1 (the earlier pending timer is cancelled by the effect
cleanup before it executes). -/
theorem claim9_debounce_single_fetch (t0 t1 : Nat) (a b : String)
    (h : t1 < t0 + 500) :
    debouncedFetches 500 [(t0, a), (t1, b)] = [(b, 1)] ∧
    (debouncedFetches 500 [(t0, a), (t1, b)]).length = 1 := by
  have hn : ¬ (t0 + 500 < t1) := by omega
  simp [debouncedFetches, hn]

/-- Witness for C9: terms 100 ms apart. -/
theorem claim9_debounce_single_fetch_witness :
    debouncedFetches 500 [(0, "apol"), (100, "breach")] = [("breach", 1)] :=
  (claim9_debounce_single_fetch 0 100 "apol" "breach" (by decide)).1

/-- C10: the payload the paginated hospital screen submits to
`POST /hospital` / `PUT /hospital/{id}` has no `registration_id` key, and
opening the edit form loads the draft with `registration_id = ""`
regardless of the selected hospital, so this screen never writes that
field. -/
theorem claim10_registration_id_never_written (d : HospitalFormData)
    (st : HospitalPageState) (h : Hospital) :
    ((hospitalPayload d).map Prod.fst) =
      ["registration_date", "clinic_name", "speciality", "logo", "email", "address",
       "address2", "pin_code", "country", "state", "city", "phone_number",
       "mobile_number", "working_hours_from", "working_hours_to"] ∧
    ((hospitalPayload d).map Prod.fst).contains "registration_id" = false ∧
    (handleEditH st h).formData.registration_id = "" :=
  ⟨rfl, rfl, rfl⟩

/-- Witness for C10 at a concrete hospital. -/
theorem claim10_registration_id_never_written_witness :
    (handleEditH staleDemoState hospitalApollo).formData.registration_id = "" :=
  (claim10_registration_id_never_written baseHospitalDraft staleDemoState
    hospitalApollo).2.2

/-- C3: each validator keys its error mapping by exactly the
missing/invalid fields — for every draft a key is present iff the
corresponding rule fails (required `clinic_name`/`address`/`pin_code` on
the hospital form, required `first_name`/`last_name`/`hospital_id`/
`email_id` on the user form, plus the format rules), the mapping is empty
iff the draft is fully valid, and pin code `"123456"` yields no error
while `"12345"`, `"1234567"`, `"12a456"` each yield a `pin_code` error. -/
theorem claim3_validation_keys_exact (d : HospitalFormData) (u : HospitalUserFormData) :
    ("clinic_name" ∈ hospitalErrorKeys (validateHospitalForm d) ↔ d.clinic_name = "") ∧
    ("address" ∈ hospitalErrorKeys (validateHospitalForm d) ↔ d.address = "") ∧
    ("pin_code" ∈ hospitalErrorKeys (validateHospitalForm d) ↔
      (d.pin_code = "" ∨ isPinCode6 d.pin_code = false)) ∧
    ("phone_number" ∈ hospitalErrorKeys (validateHospitalForm d) ↔
      (d.phone_number ≠ "" ∧ isDigits10to12 (stripSeparators d.phone_number) = false)) ∧
    ("mobile_number" ∈ hospitalErrorKeys (validateHospitalForm d) ↔
      (d.mobile_number ≠ "" ∧ isDigits10to12 (stripSeparators d.mobile_number) = false)) ∧
    ("email" ∈ hospitalErrorKeys (validateHospitalForm d) ↔
      (d.email ≠ "" ∧ isEmailLike d.email = false)) ∧
    ("working_hours_to" ∈ hospitalErrorKeys (validateHospitalForm d) ↔
      (d.working_hours_from ≠ "" ∧ d.working_hours_to ≠ "" ∧
        ∃ fm tm, parseClockTime d.working_hours_from = some fm ∧
          parseClockTime d.working_hours_to = some tm ∧ tm ≤ fm)) ∧
    (hospitalErrorKeys (validateHospitalForm d) = [] ↔
      validateHospitalForm d = emptyHospitalErrors) ∧
    ("first_name" ∈ userErrorKeys (validateUserForm u) ↔ u.first_name = "") ∧
    ("last_name" ∈ userErrorKeys (validateUserForm u) ↔ u.last_name = "") ∧
    ("hospital_id" ∈ userErrorKeys (validateUserForm u) ↔ u.hospital_id = "") ∧
    ("email_id" ∈ userErrorKeys (validateUserForm u) ↔
      (u.email_id = "" ∨ isEmailLike u.email_id = false)) ∧
    ("phone_number" ∈ userErrorKeys (validateUserForm u) ↔
      (u.phone_number ≠ "" ∧ isDigits10to12 (stripSeparators u.phone_number) = false)) ∧
    ("mobile_number" ∈ userErrorKeys (validateUserForm u) ↔
      (u.mobile_number ≠ "" ∧ isDigits10to12 (stripSeparators u.mobile_number) = false)) ∧
    hospitalErrorKeys (validateHospitalForm (hospitalDraftWithPin "123456")) = [] ∧
    "pin_code" ∈ hospitalErrorKeys (validateHospitalForm (hospitalDraftWithPin "12345")) ∧
    "pin_code" ∈ hospitalErrorKeys (validateHospitalForm (hospitalDraftWithPin "1234567")) ∧
    "pin_code" ∈ hospitalErrorKeys (validateHospitalForm (hospitalDraftWithPin "12a456")) := by
  refine ⟨?_, ?_, ?_, ?_, ?_, ?_, ?_, hospitalErrorKeys_eq_nil _, ?_, ?_, ?_, ?_, ?_, ?_,
    by decide, by decide, by decide, by decide⟩
  · simp [hospitalErrorKeys, mem_optKey, validateHospitalForm]
  · simp [hospitalErrorKeys, mem_optKey, validateHospitalForm]
  · simp [hospitalErrorKeys, mem_optKey, validateHospitalForm]
    by_cases h : d.pin_code = "" <;> by_cases h2 : isPinCode6 d.pin_code <;> simp [h, h2]
  · simp [hospitalErrorKeys, mem_optKey, validateHospitalForm]
  · simp [hospitalErrorKeys, mem_optKey, validateHospitalForm]
  · simp [hospitalErrorKeys, mem_optKey, validateHospitalForm]
  · simp [hospitalErrorKeys, mem_optKey, validateHospitalForm]
    by_cases h1 : d.working_hours_from = "" <;> by_cases h2 : d.working_hours_to = "" <;>
      simp [h1, h2]
    rcases hf : parseClockTime d.working_hours_from with _ | fm <;>
      rcases ht : parseClockTime d.working_hours_to with _ | tm <;> simp [hf, ht]
  · simp [userErrorKeys, mem_optKey, validateUserForm]
  · simp [userErrorKeys, mem_optKey, validateUserForm]
  · simp [userErrorKeys, mem_optKey, validateUserForm]
  · simp [userErrorKeys, mem_optKey, validateUserForm]
    by_cases h : u.email_id = "" <;> by_cases h2 : isEmailLike u.email_id <;> simp [h, h2]
  · simp [userErrorKeys, mem_optKey, validateUserForm]
  · simp [userErrorKeys, mem_optKey, validateUserForm]

/-- Witness for C3: the pin-code iff at the concrete draft with pin
`"12a456"`. -/
theorem claim3_validation_keys_exact_witness :
    "pin_code" ∈ hospitalErrorKeys (validateHospitalForm (hospitalDraftWithPin "12a456")) :=
  ((claim3_validation_keys_exact (hospitalDraftWithPin "12a456")
    initialUserFormData).2.2.1).mpr (by decide)

/-- C4, counterexample: validation of a phone-like field is not invariant
under pre-stripping. The separator-only string `"-"` strips to `""`; the
original draft fails the phone rule while the pre-stripped draft skips it
(empty fields are not format-checked), so the two validation results for
the field differ. -/
theorem claim4_strip_invariance_cex :
    stripSeparators "-" = "" ∧
    (validateHospitalForm { baseHospitalDraft with phone_number := "-" }).phone_number =
      some "Please enter a valid phone number" ∧
    (validateHospitalForm
      { baseHospitalDraft with phone_number := stripSeparators "-" }).phone_number =
      none := by
  refine ⟨by decide, by decide, by decide⟩

/-- C4, amended: for every string `s` that is not a non-empty run of
separator characters (i.e. unless `s ≠ ""` strips to `""`), validating the
draft holding `stripSeparators s` in a phone-like field gives the same
result for that field as validating the draft holding `s`, on both
screens and for both the phone and the mobile field. -/
theorem claim4_strip_invariance (d : HospitalFormData) (u : HospitalUserFormData)
    (s : String) (h : stripSeparators s = "" → s = "") :
    ((validateHospitalForm { d with phone_number := stripSeparators s }).phone_number =
      (validateHospitalForm { d with phone_number := s }).phone_number) ∧
    ((validateHospitalForm { d with mobile_number := stripSeparators s }).mobile_number =
      (validateHospitalForm { d with mobile_number := s }).mobile_number) ∧
    ((validateUserForm { u with phone_number := stripSeparators s }).phone_number =
      (validateUserForm { u with phone_number := s }).phone_number) ∧
    ((validateUserForm { u with mobile_number := stripSeparators s }).mobile_number =
      (validateUserForm { u with mobile_number := s }).mobile_number) := by
  by_cases hs : stripSeparators s = ""
  · rw [h hs]
    refine ⟨?_, ?_, ?_, ?_⟩ <;> simp [stripSeparators]
  · have hsne : s ≠ "" := by
      intro he
      rw [he] at hs
      exact hs rfl
    refine ⟨?_, ?_, ?_, ?_⟩ <;>
      simp [validateHospitalForm, validateUserForm, hs, hsne, stripSeparators_idem]

/-- Witness for C4 (amended) at a phone number with separators. -/
theorem claim4_strip_invariance_witness :
    (validateHospitalForm
      { baseHospitalDraft with phone_number := stripSeparators "044-2345 6789" }).phone_number =
      (validateHospitalForm
        { baseHospitalDraft with phone_number := "044-2345 6789" }).phone_number :=
  (claim4_strip_invariance baseHospitalDraft initialUserFormData "044-2345 6789"
    (by decide)).1

/-- C5: when both working-hours bounds parse as clock times, validation
passes iff the "from" time is strictly before the "to" time; concretely,
`09:00`/`08:00` and `08:00`/`08:00` produce exactly one error, keyed at
`working_hours_to`, while `08:00`/`09:00` produces none. -/
theorem claim5_working_hours_strict (d : HospitalFormData) (fm tm : Nat)
    (hf : parseClockTime d.working_hours_from = some fm)
    (ht : parseClockTime d.working_hours_to = some tm) :
    ((validateHospitalForm d).working_hours_to = none ↔ fm < tm) ∧
    hospitalErrorKeys (validateHospitalForm (hospitalDraftWithHours "09:00" "08:00")) =
      ["working_hours_to"] ∧
    hospitalErrorKeys (validateHospitalForm (hospitalDraftWithHours "08:00" "08:00")) =
      ["working_hours_to"] ∧
    hospitalErrorKeys (validateHospitalForm (hospitalDraftWithHours "08:00" "09:00")) =
      [] := by
  refine ⟨?_, by decide, by decide, by decide⟩
  have h1 : d.working_hours_from ≠ "" := parseClockTime_ne_empty hf
  have h2 : d.working_hours_to ≠ "" := parseClockTime_ne_empty ht
  simp [validateHospitalForm, h1, h2, hf, ht]

/-- Witness for C5 at the draft with hours `08:00`/`09:00`. -/
theorem claim5_working_hours_strict_witness :
    (validateHospitalForm (hospitalDraftWithHours "08:00" "09:00")).working_hours_to =
      none :=
  ((claim5_working_hours_strict (hospitalDraftWithHours "08:00" "09:00") 480 540
    (by decide) (by decide)).1).mpr (by decide)

/-- C6, counterexample: not every field-mutation operation clears the
mutated field's validation error. `handleSelectChange` (used for the
required `hospital_id` field) updates the draft but leaves the validation
object untouched: after selecting a hospital while a `hospital_id` error
is pending, the error is still present and still truthy. -/
theorem claim6_setfield_clears_cex :
    (handleSelectChangeU userStateWithHospitalError .hospital_id "h1").formData.hospital_id =
      "h1" ∧
    (handleSelectChangeU userStateWithHospitalError .hospital_id
        "h1").validation.hospital_id = some "Hospital is required" ∧
    errTruthy (handleSelectChangeU userStateWithHospitalError .hospital_id
        "h1").validation.hospital_id = true := by
  refine ⟨rfl, rfl, rfl⟩

/-- C6, amended: on both screens a text-input mutation
(`handleInputChange`) sets the field, clears that field's validation
error, and leaves every other validation entry and draft field unchanged;
a select or checkbox mutation on the user screen (`handleSelectChange`,
`handleCheckboxChange`) sets only the draft field and leaves the
validation mapping entirely unchanged — in particular it does not clear
the mutated field's pending error. -/
theorem claim6_setfield_clears (st : UserPageState) (f : UserTextField) (v : String)
    (sf : UserSelectField) (sv : String) (cf : UserCheckboxField) (cb : Bool)
    (st2 : HospitalPageState) (hf : HospitalTextField) (hv : String) :
    errTruthy (getUserError (handleInputChangeU st f v).validation f) = false ∧
    getUserTextField (handleInputChangeU st f v).formData f = v ∧
    (∀ g : UserTextField, g ≠ f →
      getUserError (handleInputChangeU st f v).validation g =
        getUserError st.validation g) ∧
    (∀ g : UserTextField, g ≠ f →
      getUserTextField (handleInputChangeU st f v).formData g =
        getUserTextField st.formData g) ∧
    (∀ g : UserSelectField,
      getUserSelectField (handleInputChangeU st f v).formData g =
        getUserSelectField st.formData g) ∧
    (∀ g : UserCheckboxField,
      getUserCheckboxField (handleInputChangeU st f v).formData g =
        getUserCheckboxField st.formData g) ∧
    (handleSelectChangeU st sf sv).validation = st.validation ∧
    getUserSelectField (handleSelectChangeU st sf sv).formData sf = sv ∧
    (∀ g : UserSelectField, g ≠ sf →
      getUserSelectField (handleSelectChangeU st sf sv).formData g =
        getUserSelectField st.formData g) ∧
    (∀ g : UserTextField,
      getUserTextField (handleSelectChangeU st sf sv).formData g =
        getUserTextField st.formData g) ∧
    (handleCheckboxChangeU st cf cb).validation = st.validation ∧
    getUserCheckboxField (handleCheckboxChangeU st cf cb).formData cf = cb ∧
    (∀ g : UserCheckboxField, g ≠ cf →
      getUserCheckboxField (handleCheckboxChangeU st cf cb).formData g =
        getUserCheckboxField st.formData g) ∧
    errTruthy (getHospitalError (handleInputChangeH st2 hf hv).validation hf) = false ∧
    getHospitalTextField (handleInputChangeH st2 hf hv).formData hf = hv ∧
    (∀ g : HospitalTextField, g ≠ hf →
      getHospitalError (handleInputChangeH st2 hf hv).validation g =
        getHospitalError st2.validation g) ∧
    (∀ g : HospitalTextField, g ≠ hf →
      getHospitalTextField (handleInputChangeH st2 hf hv).formData g =
        getHospitalTextField st2.formData g) ∧
    (handleInputChangeH st2 hf hv).validation.working_hours_to =
      st2.validation.working_hours_to ∧
    (handleInputChangeH st2 hf hv).formData.registration_id =
      st2.formData.registration_id ∧
    (handleInputChangeH st2 hf hv).formData.registration_date =
      st2.formData.registration_date ∧
    (handleInputChangeH st2 hf hv).formData.working_hours_from =
      st2.formData.working_hours_from ∧
    (handleInputChangeH st2 hf hv).formData.working_hours_to =
      st2.formData.working_hours_to := by
  refine ⟨?_, ?_, ?_, ?_, ?_, ?_, rfl, ?_, ?_, ?_, rfl, ?_, ?_, ?_, ?_, ?_, ?_, ?_,
    ?_, ?_, ?_, ?_⟩
  · cases f <;> simp only [handleInputChangeU, getUserError, clearUserError] <;>
      first
        | rfl
        | (split <;> simp_all [errTruthy])
  · cases f <;> rfl
  · intro g hg
    cases f <;> cases g <;>
      first
        | exact absurd rfl hg
        | (simp only [handleInputChangeU, getUserError, clearUserError] <;>
            first
              | rfl
              | (split <;> rfl))
  · intro g hg
    cases f <;> cases g <;> first | exact absurd rfl hg | rfl
  · intro g
    cases f <;> cases g <;> rfl
  · intro g
    cases f <;> cases g <;> rfl
  · cases sf <;> rfl
  · intro g hg
    cases sf <;> cases g <;> first | exact absurd rfl hg | rfl
  · intro g
    cases sf <;> cases g <;> rfl
  · cases cf <;> rfl
  · intro g hg
    cases cf <;> cases g <;> first | exact absurd rfl hg | rfl
  · cases hf <;> simp only [handleInputChangeH, getHospitalError, clearHospitalError] <;>
      first
        | rfl
        | (split <;> simp_all [errTruthy])
  · cases hf <;> rfl
  · intro g hg
    cases hf <;> cases g <;>
      first
        | exact absurd rfl hg
        | (simp only [handleInputChangeH, getHospitalError, clearHospitalError] <;>
            first
              | rfl
              | (split <;> rfl))
  · intro g hg
    cases hf <;> cases g <;> first | exact absurd rfl hg | rfl
  · cases hf <;> simp only [handleInputChangeH, clearHospitalError] <;>
      first
        | rfl
        | (split <;> rfl)
  · cases hf <;> rfl
  · cases hf <;> rfl
  · cases hf <;> rfl
  · cases hf <;> rfl

/-- Witness for C6 (amended) at concrete page states of both screens. -/
theorem claim6_setfield_clears_witness :
    errTruthy (getUserError (handleInputChangeU userStateWithHospitalError .first_name
        "Jo").validation .first_name) = false ∧
    (handleSelectChangeU userStateWithHospitalError .title "Dr").validation =
      userStateWithHospitalError.validation ∧
    errTruthy (getHospitalError (handleInputChangeH readySubmitState .clinic_name
        "New Clinic").validation .clinic_name) = false :=
  ⟨(claim6_setfield_clears userStateWithHospitalError .first_name "Jo" .title "Dr"
      .is_admin true readySubmitState .clinic_name "New Clinic").1,
   (claim6_setfield_clears userStateWithHospitalError .first_name "Jo" .title "Dr"
      .is_admin true readySubmitState .clinic_name "New Clinic").2.2.2.2.2.2.1,
   (claim6_setfield_clears userStateWithHospitalError .first_name "Jo" .title "Dr"
      .is_admin true readySubmitState .clinic_name "New Clinic").2.2.2.2.2.2.2.2.2.2.2.2.2.1⟩

/-- C7: every modal-closing event restores the draft to the initial empty
shape (including the computed today default for the registration date),
clears the editing-entity reference, and empties the validation mapping —
both for a direct `handleCloseModal` (cancel) and at the end of a
successful submit, on both screens. -/
theorem claim7_close_modal_resets (today : String) (st : HospitalPageState)
    (stU : UserPageState) (refresh : FetchResponse) (refreshU : UserFetchResponse) :
    ((handleCloseModalH today st).formData = initialHospitalFormData today ∧
     (handleCloseModalH today st).editingHospital = none ∧
     (handleCloseModalH today st).validation = emptyHospitalErrors ∧
     (handleCloseModalH today st).isModalOpen = false) ∧
    ((handleCloseModalU stU).formData = initialUserFormData ∧
     (handleCloseModalU stU).editingUser = none ∧
     (handleCloseModalU stU).validation = emptyUserErrors ∧
     (handleCloseModalU stU).isModalOpen = false) ∧
    (hospitalErrorKeys (validateHospitalForm st.formData) = [] →
      ((handleSubmitH today st .success refresh).1.formData =
          initialHospitalFormData today ∧
       (handleSubmitH today st .success refresh).1.editingHospital = none ∧
       (handleSubmitH today st .success refresh).1.validation = emptyHospitalErrors ∧
       (handleSubmitH today st .success refresh).1.isModalOpen = false)) ∧
    (userErrorKeys (validateUserForm stU.formData) = [] →
      ((handleSubmitU stU .success refreshU).1.formData = initialUserFormData ∧
       (handleSubmitU stU .success refreshU).1.editingUser = none ∧
       (handleSubmitU stU .success refreshU).1.validation = emptyUserErrors ∧
       (handleSubmitU stU .success refreshU).1.isModalOpen = false)) := by
  refine ⟨⟨rfl, rfl, rfl, rfl⟩, ⟨rfl, rfl, rfl, rfl⟩, ?_, ?_⟩
  · intro h
    simp [handleSubmitH, h, handleCloseModalH, applyFetchResponse]
  · intro h
    simp [handleSubmitU, h, handleCloseModalU, applyUserFetchResponse]

/-- Witness for C7: successful submit of a valid concrete draft leaves the
initial draft behind. -/
theorem claim7_close_modal_resets_witness :
    (handleSubmitH "2025-01-01" readySubmitState .success demoRefresh).1.formData =
      initialHospitalFormData "2025-01-01" :=
  ((claim7_close_modal_resets "2025-01-01" readySubmitState userStateWithHospitalError
      demoRefresh demoUserRefresh).2.2.1 (by decide)).1

/-- C8: when validation yields a non-empty mapping, submit issues no
request and leaves the list, the editing reference and the loading/error
flags unchanged (only the validation mapping is replaced); a request is
issued only when the mapping is empty. Both screens. -/
theorem claim8_invalid_blocks_submit (today : String) (st : HospitalPageState)
    (out : SubmitOutcome) (refresh : FetchResponse) (stU : UserPageState)
    (outU : SubmitOutcome) (refreshU : UserFetchResponse) :
    (hospitalErrorKeys (validateHospitalForm st.formData) ≠ [] →
      ((handleSubmitH today st out refresh).2 = [] ∧
       (handleSubmitH today st out refresh).1.hospitals = st.hospitals ∧
       (handleSubmitH today st out refresh).1.editingHospital = st.editingHospital ∧
       (handleSubmitH today st out refresh).1.isLoading = st.isLoading ∧
       (handleSubmitH today st out refresh).1.error = st.error ∧
       (handleSubmitH today st out refresh).1.totalCount = st.totalCount ∧
       (handleSubmitH today st out refresh).1.currentPage = st.currentPage ∧
       (handleSubmitH today st out refresh).1.isModalOpen = st.isModalOpen)) ∧
    ((handleSubmitH today st out refresh).2 ≠ [] →
      hospitalErrorKeys (validateHospitalForm st.formData) = []) ∧
    (userErrorKeys (validateUserForm stU.formData) ≠ [] →
      ((handleSubmitU stU outU refreshU).2 = [] ∧
       (handleSubmitU stU outU refreshU).1.users = stU.users ∧
       (handleSubmitU stU outU refreshU).1.editingUser = stU.editingUser ∧
       (handleSubmitU stU outU refreshU).1.isLoading = stU.isLoading ∧
       (handleSubmitU stU outU refreshU).1.error = stU.error ∧
       (handleSubmitU stU outU refreshU).1.totalCount = stU.totalCount ∧
       (handleSubmitU stU outU refreshU).1.currentPage = stU.currentPage ∧
       (handleSubmitU stU outU refreshU).1.isModalOpen = stU.isModalOpen)) ∧
    ((handleSubmitU stU outU refreshU).2 ≠ [] →
      userErrorKeys (validateUserForm stU.formData) = []) := by
  refine ⟨?_, ?_, ?_, ?_⟩
  · intro h
    simp [handleSubmitH, h]
  · by_cases h : hospitalErrorKeys (validateHospitalForm st.formData) = [] <;>
      simp [handleSubmitH, h]
  · intro h
    simp [handleSubmitU, h]
  · by_cases h : userErrorKeys (validateUserForm stU.formData) = [] <;>
      simp [handleSubmitU, h]

/-- Witness for C8: the pristine (invalid) draft issues no request. -/
theorem claim8_invalid_blocks_submit_witness :
    (handleSubmitH "2025-01-01" invalidSubmitState .success demoRefresh).2 = [] :=
  ((claim8_invalid_blocks_submit "2025-01-01" invalidSubmitState .success demoRefresh
      userStateWithHospitalError .success demoUserRefresh).1 (by decide)).1

end ClinicAdmin
